import Mathlib

/-!
Shallow embedding of `train_countdown_app.py` (train-countdown repository).

Python `datetime` values are modelled structurally: a calendar-day ordinal
(`day : ℤ`, days since an arbitrary epoch) together with hour/minute/second/
microsecond fields.  Comparison of naive datetimes is comparison of the
total-microsecond value `toUsec`.  Python exceptions that escape a function
are modelled with `Except String`; a caught-and-converted parse failure is
the `Option` layer inside the `ok` result, exactly as in the source, where
the `try`/`except` around split-and-int returns `None` while
`datetime.replace` raises outside of it.
-/

/-- A naive wall-clock timestamp: calendar-day ordinal plus time-of-day
fields, mirroring Python `datetime` for the operations the app uses
(`replace`, `+ timedelta`, comparison). -/
structure DateTime where
  day : ℤ
  hour : ℤ
  minute : ℤ
  second : ℤ
  usec : ℤ
deriving DecidableEq, Repr

/-- Total microseconds since the epoch; naive-`datetime` comparison order. -/
def DateTime.toUsec (d : DateTime) : ℤ :=
  (((d.day * 24 + d.hour) * 60 + d.minute) * 60 + d.second) * 1000000 + d.usec

/-- Field ranges of a real `datetime` value (as produced by
`datetime.now()`). -/
def DateTime.Valid (d : DateTime) : Prop :=
  0 ≤ d.hour ∧ d.hour ≤ 23 ∧ 0 ≤ d.minute ∧ d.minute ≤ 59 ∧
  0 ≤ d.second ∧ d.second ≤ 59 ∧ 0 ≤ d.usec ∧ d.usec ≤ 999999

instance (d : DateTime) : Decidable d.Valid := by
  unfold DateTime.Valid; infer_instance

/-- Python `d.replace(hour=hh, minute=mm, second=0, microsecond=0)`: keeps the
date, overwrites the time fields; raises `ValueError` when the hour or
minute is out of range (this check happens inside `replace`, outside the
caller's `try`). -/
def DateTime.replaceTime (d : DateTime) (hh mm : ℤ) : Except String DateTime :=
  if 0 ≤ hh ∧ hh ≤ 23 ∧ 0 ≤ mm ∧ mm ≤ 59 then
    .ok { d with hour := hh, minute := mm, second := 0, usec := 0 }
  else
    .error "ValueError: hour or minute out of range"

/-- Python `d + timedelta(days=1)` on a naive datetime: same wall time, next
calendar day. -/
def DateTime.addOneDay (d : DateTime) : DateTime :=
  { d with day := d.day + 1 }

/-- Helper for `pySplit`: walk the characters, cutting at each separator;
Python `split` keeps empty pieces, and an empty input yields one empty
piece. -/
def pySplitAux (sep : Char) : List Char → List Char → List String
  | [], acc => [String.mk acc.reverse]
  | c :: cs, acc =>
    if c = sep then String.mk acc.reverse :: pySplitAux sep cs []
    else pySplitAux sep cs (c :: acc)

/-- Python `s.split(sep)` for a one-character separator, as used by
`tstr.split(":")`. -/
def pySplit (s : String) (sep : Char) : List String :=
  pySplitAux sep s.data []

/-- Python `c in s` membership for a one-character needle, as used by
`":" in etd`. -/
def pyContains (s : String) (c : Char) : Bool :=
  s.data.contains c

/-- Strip leading and trailing whitespace, as Python `int` does before
reading the digits. -/
def pyStrip (l : List Char) : List Char :=
  ((l.dropWhile Char.isWhitespace).reverse.dropWhile Char.isWhitespace).reverse

/-- Python `int(s)` for base-10 strings: optional surrounding whitespace,
optional sign, then a nonempty run of decimal digits; `none` models the
`ValueError` that the caller catches. -/
def pyParseInt (s : String) : Option ℤ :=
  let t := pyStrip s.data
  let sign : ℤ := match t with
    | c :: _ => if c = '-' then -1 else 1
    | [] => 1
  let digits : List Char := match t with
    | c :: cs => if c = '-' ∨ c = '+' then cs else t
    | [] => []
  if digits ≠ [] ∧ digits.all Char.isDigit then
    some (sign * (digits.foldl (fun acc c => acc * 10 + (c.toNat - 48)) (0 : ℕ) : ℕ))
  else
    none

/-- The function `parse_time_hhmm(tstr)` with the ambient `datetime.now()` made an
explicit argument `now`.  The `try` covers only the split-and-convert step
(any failure there returns `None`, i.e. `.ok none`); the range check done
by `now.replace(...)` happens outside it, so an out-of-range hour or
minute escapes as an exception (`.error`). -/
def parse_time_hhmm (now : DateTime) (tstr : String) : Except String (Option DateTime) :=
  match (pySplit tstr ':').map pyParseInt with
  | [some hh, some mm] =>
    match now.replaceTime hh mm with
    | .ok candidate =>
      .ok (some (if candidate.toUsec < now.toUsec - 6 * 3600 * 1000000 then
                   candidate.addOneDay
                 else
                   candidate))
    | .error e => .error e
  | _ => .ok none

/-- The second half of `best_departure_datetime`: `if std:` then try to
parse and return it with basis `"Scheduled"`, else fall through to
`return None, None`. -/
def tryScheduled (now : DateTime) (std : String) :
    Except String (Option DateTime × Option String) :=
  if std ≠ "" then
    match parse_time_hhmm now std with
    | .error e => .error e
    | .ok (some dt) => .ok (some dt, some "Scheduled")
    | .ok none => .ok (none, none)
  else
    .ok (none, none)

/-- The function `best_departure_datetime(std, etd)`: try `etd` first (guarded by
`etd and ":" in etd`), then `std` (guarded by `if std:`); the Python
basis values `"Estimated"` / `"Scheduled"` / `None` are kept literally as
`Option String` (`none` is the unresolved case). -/
def best_departure_datetime (now : DateTime) (std etd : String) :
    Except String (Option DateTime × Option String) :=
  if etd ≠ "" ∧ pyContains etd ':' then
    match parse_time_hhmm now etd with
    | .error e => .error e
    | .ok (some dt) => .ok (some dt, some "Estimated")
    | .ok none => tryScheduled now std
  else
    tryScheduled now std

/-- The raw per-service fields extracted from the upstream XML. -/
structure RawServiceRecord where
  std : String
  etd : String
  operator : String
  destination : String
  platform : String
deriving DecidableEq, Repr

/-- The dictionary `fetch_services` builds for each service. -/
structure ResolvedService where
  std : String
  etd : String
  basis : Option String
  operator : String
  destination : String
  platform : String
  depart_dt : Option DateTime
deriving DecidableEq, Repr

/-- The per-record body of the loop in `fetch_services`: apply the
resolver and assemble the service dictionary. -/
def resolveService (now : DateTime) (r : RawServiceRecord) :
    Except String ResolvedService :=
  match best_departure_datetime now r.std r.etd with
  | .error e => .error e
  | .ok (dt, basis) =>
    .ok { std := r.std, etd := r.etd, basis := basis, operator := r.operator,
          destination := r.destination, platform := r.platform, depart_dt := dt }

/-- One entry of the selectable options list:
`f"{i+1}. {std} → {destination} (ETD {etd}, Plat {platform}, {operator})"`. -/
def renderOption (i : Nat) (s : ResolvedService) : String :=
  toString (i + 1) ++ ". " ++ s.std ++ " → " ++ s.destination ++
    " (ETD " ++ s.etd ++ ", Plat " ++ s.platform ++ ", " ++ s.operator ++ ")"

/-- Modelled from the spec: the rendering template the spec claims,
"`<std>` → `<destination>` (ETD `<etd>`, Platform `<platform>`,
`<operator>`)", for comparison with `renderOption`. -/
def renderOptionSpec (s : ResolvedService) : String :=
  s.std ++ " → " ++ s.destination ++ " (ETD " ++ s.etd ++ ", Platform " ++
    s.platform ++ ", " ++ s.operator ++ ")"

/-- The `for i, s in enumerate(services)` loop building the options list. -/
def buildOptions (services : List ResolvedService) : List String :=
  services.enum.map (fun p => renderOption p.1 p.2)

/-- The UI session state relevant to the fetch flow: the stored service
list (`st.session_state["services"]`), absent before the first successful
fetch. -/
structure UIState where
  sessionServices : Option (List ResolvedService)
deriving DecidableEq, Repr

/-- Outcome of one call to `fetch_services`: a list of resolved services,
or an exception (network error, malformed XML, HTTP error status). -/
inductive FetchOutcome where
  | success (svcs : List ResolvedService)
  | failure (msg : String)
deriving DecidableEq, Repr

/-- What the Fetch Services button handler did: the updated session state
and which messages were shown. -/
structure HandlerResult where
  newState : UIState
  errorShown : Bool
  warningShown : Bool
deriving DecidableEq, Repr

/-- The `if st.button("Fetch Services")` handler: on exception, show the
error and set the local `services` to `[]`; then an empty local list shows
the warning and leaves the session state untouched, while a nonempty list
is stored into the session. -/
def fetchButtonHandler (st : UIState) (outcome : FetchOutcome) : HandlerResult :=
  match outcome with
  | .failure _ =>
    { newState := st, errorShown := true, warningShown := true }
  | .success svcs =>
    if svcs.isEmpty then
      { newState := st, errorShown := false, warningShown := true }
    else
      { newState := { sessionServices := some svcs }, errorShown := false,
        warningShown := false }

/-- The service list the UI renders: the stored session list, or nothing
when no fetch has succeeded yet (`if "services" in st.session_state`). -/
def displayedServices (st : UIState) : List ResolvedService :=
  match st.sessionServices with
  | some l => l
  | none => []

/-- What one iteration of the countdown loop draws. -/
inductive CountdownDisplay where
  | departingNow
  | placeholder
  | live (mm ss : ℤ)
deriving DecidableEq, Repr

/-- Python `int(remaining.total_seconds())` for a remaining time given in
microseconds: Python `int()` truncates toward zero. -/
def totalSec (remainingUsec : ℤ) : ℤ :=
  remainingUsec.tdiv 1000000

/-- The body of the countdown `while True` loop, as a function of
`total_sec`: the display drawn this iteration and whether the loop
continues (`false` models the `break` after "Departing now!").
`divmod` is floor division. -/
def countdownStep (total_sec : ℤ) : CountdownDisplay × Bool :=
  if total_sec ≤ 0 then
    (.departingNow, false)
  else if total_sec > 300 then
    (.placeholder, true)
  else
    (.live (total_sec.fdiv 60) (total_sec.fmod 60), true)

/-- One countdown-loop iteration from the target instant and the current
moment, both in microseconds since the epoch. -/
def countdownIter (targetUsec nowUsec : ℤ) : CountdownDisplay × Bool :=
  countdownStep (totalSec (targetUsec - nowUsec))

/-- A sample resolved service, used as a concrete evaluation point. -/
def staleService : ResolvedService :=
  ⟨"09:15", "On time", some "Scheduled", "GW", "Reading", "4", some ⟨0, 9, 15, 0, 0⟩⟩

/-! ## Helper lemmas about the resolver -/

/-- When the split-and-convert step does not yield exactly two integers,
the `except` clause returns `None`. -/
theorem parse_time_hhmm_ok_none (now : DateTime) (tstr : String)
    (h : ∀ hh mm : ℤ, (pySplit tstr ':').map pyParseInt ≠ [some hh, some mm]) :
    parse_time_hhmm now tstr = .ok none := by
  unfold parse_time_hhmm
  cases hl : (pySplit tstr ':').map pyParseInt with
  | nil => rfl
  | cons a t =>
    cases t with
    | nil => cases a <;> rfl
    | cons b t2 =>
      cases t2 with
      | nil =>
        cases a with
        | none => cases b <;> rfl
        | some hh =>
          cases b with
          | none => rfl
          | some mm => exact absurd hl (h hh mm)
      | cons c t3 => cases a <;> cases b <;> rfl

/-- When the split-and-convert step yields an in-range hour and minute,
`parse_time_hhmm` returns the anchored candidate. -/
theorem parse_time_hhmm_pair (now : DateTime) (tstr : String) (hh mm : ℤ)
    (hp : (pySplit tstr ':').map pyParseInt = [some hh, some mm])
    (h1 : 0 ≤ hh) (h2 : hh ≤ 23) (h3 : 0 ≤ mm) (h4 : mm ≤ 59) :
    parse_time_hhmm now tstr =
      .ok (some (if (DateTime.mk now.day hh mm 0 0).toUsec <
                    now.toUsec - 6 * 3600 * 1000000 then
                   (DateTime.mk now.day hh mm 0 0).addOneDay
                 else
                   DateTime.mk now.day hh mm 0 0)) := by
  simp only [parse_time_hhmm, hp, DateTime.replaceTime]
  rw [if_pos (show 0 ≤ hh ∧ hh ≤ 23 ∧ 0 ≤ mm ∧ mm ≤ 59 from ⟨h1, h2, h3, h4⟩)]

/-- When `etd` is empty, lacks a colon, or fails to parse, the resolver
falls through to the scheduled branch. -/
theorem best_skips_etd (now : DateTime) (std etd : String)
    (hfail : etd = "" ∨ pyContains etd ':' = false ∨ parse_time_hhmm now etd = .ok none) :
    best_departure_datetime now std etd = tryScheduled now std := by
  unfold best_departure_datetime
  by_cases hcond : etd ≠ "" ∧ pyContains etd ':' = true
  · rw [if_pos hcond]
    obtain ⟨hne, hcc⟩ := hcond
    rcases hfail with h | h | h
    · exact absurd h hne
    · rw [h] at hcc
      exact Bool.noConfusion hcc
    · rw [h]
  · rw [if_neg hcond]

/-- A parsing `etd` is returned with basis `"Estimated"`, whatever `std`
is. -/
theorem best_estimated_of_parse (now : DateTime) (std etd : String) (dt : DateTime)
    (hne : etd ≠ "") (hc : pyContains etd ':' = true)
    (hp : parse_time_hhmm now etd = .ok (some dt)) :
    best_departure_datetime now std etd = .ok (some dt, some "Estimated") := by
  unfold best_departure_datetime
  rw [if_pos ⟨hne, hc⟩, hp]

/-- When `etd` is unusable and `std` parses, the result carries basis
`"Scheduled"`. -/
theorem best_scheduled_of_parse (now : DateTime) (std etd : String) (dt : DateTime)
    (hfail : etd = "" ∨ pyContains etd ':' = false ∨ parse_time_hhmm now etd = .ok none)
    (hs : std ≠ "") (hp : parse_time_hhmm now std = .ok (some dt)) :
    best_departure_datetime now std etd = .ok (some dt, some "Scheduled") := by
  rw [best_skips_etd now std etd hfail]
  unfold tryScheduled
  rw [if_pos hs, hp]

/-- Every non-raising output of the scheduled branch is unresolved or a
scheduled instant. -/
theorem tryScheduled_cases (now : DateTime) (std : String)
    (out : Option DateTime × Option String) (h : tryScheduled now std = .ok out) :
    out = (none, none) ∨ (∃ dt, out = (some dt, some "Scheduled")) := by
  unfold tryScheduled at h
  by_cases hs : std ≠ ""
  · rw [if_pos hs] at h
    cases hp : parse_time_hhmm now std with
    | error e =>
      rw [hp] at h
      exact Except.noConfusion h
    | ok o =>
      rw [hp] at h
      cases o with
      | none => exact Or.inl (Except.ok.inj h).symm
      | some dt => exact Or.inr ⟨dt, (Except.ok.inj h).symm⟩
  · rw [if_neg hs] at h
    exact Or.inl (Except.ok.inj h).symm

/-- Every non-raising output of the resolver is unresolved, estimated, or
scheduled — with the instant present exactly in the latter two shapes. -/
theorem best_departure_cases (now : DateTime) (std etd : String)
    (out : Option DateTime × Option String)
    (h : best_departure_datetime now std etd = .ok out) :
    out = (none, none) ∨ (∃ dt, out = (some dt, some "Estimated")) ∨
      (∃ dt, out = (some dt, some "Scheduled")) := by
  unfold best_departure_datetime at h
  by_cases hcond : etd ≠ "" ∧ pyContains etd ':' = true
  · rw [if_pos hcond] at h
    cases hp : parse_time_hhmm now etd with
    | error e =>
      rw [hp] at h
      exact Except.noConfusion h
    | ok o =>
      rw [hp] at h
      cases o with
      | none =>
        rcases tryScheduled_cases now std out h with h0 | h1
        · exact Or.inl h0
        · exact Or.inr (Or.inr h1)
      | some dt => exact Or.inr (Or.inl ⟨dt, (Except.ok.inj h).symm⟩)
  · rw [if_neg hcond] at h
    rcases tryScheduled_cases now std out h with h0 | h1
    · exact Or.inl h0
    · exact Or.inr (Or.inr h1)

/-! ## Claim theorems -/

/-- C1: for every parseable "HH:MM" input and every current moment `now`,
the resolver builds the candidate as today's date at that hour:minute
with seconds (and microseconds) zero, and advances it by exactly one
calendar day if and only if the candidate is strictly earlier than `now`
minus 6 hours; concretely, with now = 23:50 and input "00:10" the result
is 00:10 the following day, with now = 10:00 and input "04:30" it stays
today at 04:30, and a candidate exactly equal to now − 6h (now = 06:00,
input "00:00") stays today. -/
theorem C1_clock_time_anchoring (now : DateTime) (tstr : String) (hh mm : ℤ)
    (hp : (pySplit tstr ':').map pyParseInt = [some hh, some mm])
    (h1 : 0 ≤ hh) (h2 : hh ≤ 23) (h3 : 0 ≤ mm) (h4 : mm ≤ 59) :
    (Except.map (Option.map fun r => (r.day, r.hour, r.minute, r.second, r.usec))
        (parse_time_hhmm now tstr) =
      .ok (some ((if (DateTime.mk now.day hh mm 0 0).toUsec <
                      now.toUsec - 6 * 3600 * 1000000 then
                    now.day + 1
                  else
                    now.day), hh, mm, 0, 0))) ∧
    parse_time_hhmm ⟨0, 23, 50, 0, 0⟩ "00:10" = .ok (some ⟨1, 0, 10, 0, 0⟩) ∧
    parse_time_hhmm ⟨0, 10, 0, 0, 0⟩ "04:30" = .ok (some ⟨0, 4, 30, 0, 0⟩) ∧
    parse_time_hhmm ⟨0, 6, 0, 0, 0⟩ "00:00" = .ok (some ⟨0, 0, 0, 0, 0⟩) := by
  refine ⟨?_, rfl, rfl, rfl⟩
  rw [parse_time_hhmm_pair now tstr hh mm hp h1 h2 h3 h4]
  by_cases hcnd : (DateTime.mk now.day hh mm 0 0).toUsec < now.toUsec - 6 * 3600 * 1000000
  · rw [if_pos hcnd, if_pos hcnd]
    rfl
  · rw [if_neg hcnd, if_neg hcnd]
    rfl

/-- Witness for C1 at now = 23:50 (day 0) and input "00:10". -/
theorem C1_clock_time_anchoring_witness :
    Except.map (Option.map fun r => (r.day, r.hour, r.minute, r.second, r.usec))
        (parse_time_hhmm ⟨0, 23, 50, 0, 0⟩ "00:10") =
      .ok (some ((if (DateTime.mk 0 0 10 0 0).toUsec <
                      (DateTime.mk 0 23 50 0 0).toUsec - 6 * 3600 * 1000000 then
                    (0 : ℤ) + 1
                  else
                    0), 0, 10, 0, 0)) :=
  (C1_clock_time_anchoring ⟨0, 23, 50, 0, 0⟩ "00:10" 0 10 rfl (by decide) (by decide)
    (by decide) (by decide)).1

/-- C2: whenever the estimated string parses as a valid clock time it is
anchored and returned with basis Estimated, regardless of the scheduled
string; otherwise, when the scheduled string parses, it is returned with
basis Scheduled; in particular resolving std = "14:05" with etd =
"Delayed" yields 14:05 with basis Scheduled. -/
theorem C2_estimated_preference (now : DateTime) (std etd : String) (dt : DateTime)
    (hne : etd ≠ "") (hc : pyContains etd ':' = true)
    (hp : parse_time_hhmm now etd = .ok (some dt)) :
    best_departure_datetime now std etd = .ok (some dt, some "Estimated") ∧
    (∀ std2 etd2 dt2,
      (etd2 = "" ∨ pyContains etd2 ':' = false ∨ parse_time_hhmm now etd2 = .ok none) →
      std2 ≠ "" → parse_time_hhmm now std2 = .ok (some dt2) →
      best_departure_datetime now std2 etd2 = .ok (some dt2, some "Scheduled")) ∧
    best_departure_datetime ⟨0, 10, 0, 0, 0⟩ "14:05" "Delayed" =
      .ok (some ⟨0, 14, 5, 0, 0⟩, some "Scheduled") :=
  ⟨best_estimated_of_parse now std etd dt hne hc hp,
   fun std2 etd2 dt2 hf hs hp2 => best_scheduled_of_parse now std2 etd2 dt2 hf hs hp2,
   rfl⟩

/-- Witness for C2: etd = "14:12" wins over the unparseable std =
"Cancelled". -/
theorem C2_estimated_preference_witness :
    best_departure_datetime ⟨0, 10, 0, 0, 0⟩ "Cancelled" "14:12" =
      .ok (some ⟨0, 14, 12, 0, 0⟩, some "Estimated") :=
  (C2_estimated_preference ⟨0, 10, 0, 0, 0⟩ "Cancelled" "14:12" ⟨0, 14, 12, 0, 0⟩
    (by decide) (by decide) rfl).1

/-- C3: every valid HH:MM pair (0 ≤ HH ≤ 23, 0 ≤ MM ≤ 59) supplied as a
valid input field yields a non-null instant whose hour and minute equal
the input's HH and MM — as the estimated field with any scheduled string,
and as the scheduled field whenever the estimated field is unusable. -/
theorem C3_minute_of_day_matches (now : DateTime) (tstr : String) (hh mm : ℤ)
    (hp : (pySplit tstr ':').map pyParseInt = [some hh, some mm])
    (h1 : 0 ≤ hh) (h2 : hh ≤ 23) (h3 : 0 ≤ mm) (h4 : mm ≤ 59)
    (hne : tstr ≠ "") (hc : pyContains tstr ':' = true) :
    (∀ std, Except.map (fun out => (Option.map (fun dt => (dt.hour, dt.minute)) out.1, out.2))
        (best_departure_datetime now std tstr) = .ok (some (hh, mm), some "Estimated")) ∧
    (∀ etd, (etd = "" ∨ pyContains etd ':' = false ∨ parse_time_hhmm now etd = .ok none) →
      Except.map (fun out => (Option.map (fun dt => (dt.hour, dt.minute)) out.1, out.2))
        (best_departure_datetime now tstr etd) = .ok (some (hh, mm), some "Scheduled")) := by
  have hpar := parse_time_hhmm_pair now tstr hh mm hp h1 h2 h3 h4
  by_cases hcnd : (DateTime.mk now.day hh mm 0 0).toUsec < now.toUsec - 6 * 3600 * 1000000
  · rw [if_pos hcnd] at hpar
    exact ⟨fun std => by rw [best_estimated_of_parse now std tstr _ hne hc hpar]; rfl,
           fun etd hf => by rw [best_scheduled_of_parse now tstr etd _ hf hne hpar]; rfl⟩
  · rw [if_neg hcnd] at hpar
    exact ⟨fun std => by rw [best_estimated_of_parse now std tstr _ hne hc hpar]; rfl,
           fun etd hf => by rw [best_scheduled_of_parse now tstr etd _ hf hne hpar]; rfl⟩

/-- Witness for C3: "09:15" as the estimated field with std = "Delayed". -/
theorem C3_minute_of_day_matches_witness :
    Except.map (fun out => (Option.map (fun dt => (dt.hour, dt.minute)) out.1, out.2))
        (best_departure_datetime ⟨0, 10, 0, 0, 0⟩ "Delayed" "09:15") =
      .ok (some ((9 : ℤ), (15 : ℤ)), some "Estimated") :=
  (C3_minute_of_day_matches ⟨0, 10, 0, 0, 0⟩ "09:15" 9 15 rfl (by decide) (by decide)
    (by decide) (by decide) (by decide) (by decide)).1 "Delayed"

/-- C4: when neither field parses as a colon-separated pair of integers,
the resolver returns a null instant and the unresolved basis (Python's
`None`, modelled as `none`); in particular for both fields empty and for
std = "Cancelled" with an empty estimated field. -/
theorem C4_neither_parses_unresolved (now : DateTime) (std etd : String)
    (hstd : ∀ hh mm : ℤ, (pySplit std ':').map pyParseInt ≠ [some hh, some mm])
    (hetd : ∀ hh mm : ℤ, (pySplit etd ':').map pyParseInt ≠ [some hh, some mm]) :
    best_departure_datetime now std etd = .ok (none, none) ∧
    best_departure_datetime now "" "" = .ok (none, none) ∧
    best_departure_datetime now "Cancelled" "" = .ok (none, none) := by
  have he := parse_time_hhmm_ok_none now etd hetd
  have hs := parse_time_hhmm_ok_none now std hstd
  have ht : tryScheduled now std = .ok (none, none) := by
    unfold tryScheduled
    by_cases h : std ≠ ""
    · rw [if_pos h, hs]
    · rw [if_neg h]
  refine ⟨?_, rfl, rfl⟩
  rw [best_skips_etd now std etd (Or.inr (Or.inr he))]
  exact ht

/-- Witness for C4 with std = "Delayed" and etd = "On time". -/
theorem C4_neither_parses_unresolved_witness :
    best_departure_datetime ⟨0, 10, 0, 0, 0⟩ "Delayed" "On time" = .ok (none, none) := by
  have hstd : ∀ hh mm : ℤ, (pySplit "Delayed" ':').map pyParseInt ≠ [some hh, some mm] := by
    intro hh mm h
    rw [show (pySplit "Delayed" ':').map pyParseInt = [none] from rfl] at h
    simp at h
  have hetd : ∀ hh mm : ℤ, (pySplit "On time" ':').map pyParseInt ≠ [some hh, some mm] := by
    intro hh mm h
    rw [show (pySplit "On time" ':').map pyParseInt = [none] from rfl] at h
    simp at h
  exact (C4_neither_parses_unresolved ⟨0, 10, 0, 0, 0⟩ "Delayed" "On time" hstd hetd).1

/-- C5: for every resolved service produced from a fetched record, the
departure instant is present exactly when the basis is not the unresolved
value. -/
theorem C5_instant_iff_basis (now : DateTime) (r : RawServiceRecord)
    (rs : ResolvedService) (h : resolveService now r = .ok rs) :
    rs.depart_dt ≠ none ↔ rs.basis ≠ none := by
  unfold resolveService at h
  cases hb : best_departure_datetime now r.std r.etd with
  | error e =>
    rw [hb] at h
    exact Except.noConfusion h
  | ok out =>
    rw [hb] at h
    obtain ⟨d, b⟩ := out
    replace h := Except.ok.inj h
    subst h
    rcases best_departure_cases now r.std r.etd (d, b) hb with h0 | ⟨dt, h1⟩ | ⟨dt, h1⟩
    · obtain ⟨rfl, rfl⟩ := Prod.mk.inj h0
      simp
    · obtain ⟨rfl, rfl⟩ := Prod.mk.inj h1
      simp
    · obtain ⟨rfl, rfl⟩ := Prod.mk.inj h1
      simp

/-- Witness for C5 on a concrete record resolved at now = 10:00. -/
theorem C5_instant_iff_basis_witness :
    ((⟨"09:15", "On time", some "Scheduled", "GW", "Reading", "4",
        some ⟨0, 9, 15, 0, 0⟩⟩ : ResolvedService).depart_dt ≠ none ↔
      (⟨"09:15", "On time", some "Scheduled", "GW", "Reading", "4",
        some ⟨0, 9, 15, 0, 0⟩⟩ : ResolvedService).basis ≠ none) :=
  C5_instant_iff_basis ⟨0, 10, 0, 0, 0⟩ ⟨"09:15", "On time", "GW", "Reading", "4"⟩ _ rfl

/-- C6: a present resolved instant is at least now − 6 hours and at most
one calendar day ahead of now. -/
theorem C6_departure_bounds (now : DateTime) (hv : now.Valid) (tstr : String)
    (hh mm : ℤ) (hp : (pySplit tstr ':').map pyParseInt = [some hh, some mm])
    (h1 : 0 ≤ hh) (h2 : hh ≤ 23) (h3 : 0 ≤ mm) (h4 : mm ≤ 59)
    (r : DateTime) (hr : parse_time_hhmm now tstr = .ok (some r)) :
    now.toUsec - 6 * 3600 * 1000000 ≤ r.toUsec ∧
      r.toUsec ≤ now.toUsec + 24 * 3600 * 1000000 := by
  rw [parse_time_hhmm_pair now tstr hh mm hp h1 h2 h3 h4] at hr
  obtain ⟨hvh1, hvh2, hvm1, hvm2, hvs1, hvs2, hvu1, hvu2⟩ := hv
  by_cases hcnd : (DateTime.mk now.day hh mm 0 0).toUsec < now.toUsec - 6 * 3600 * 1000000
  · rw [if_pos hcnd] at hr
    have hx := Option.some.inj (Except.ok.inj hr)
    subst hx
    simp only [DateTime.toUsec, DateTime.addOneDay] at hcnd ⊢
    omega
  · rw [if_neg hcnd] at hr
    have hx := Option.some.inj (Except.ok.inj hr)
    subst hx
    simp only [DateTime.toUsec] at hcnd ⊢
    omega

/-- Witness for C6 at now = 23:50 and input "00:10" (rolled to day 1). -/
theorem C6_departure_bounds_witness :
    (⟨0, 23, 50, 0, 0⟩ : DateTime).toUsec - 6 * 3600 * 1000000 ≤
        (⟨1, 0, 10, 0, 0⟩ : DateTime).toUsec ∧
      (⟨1, 0, 10, 0, 0⟩ : DateTime).toUsec ≤
        (⟨0, 23, 50, 0, 0⟩ : DateTime).toUsec + 24 * 3600 * 1000000 :=
  C6_departure_bounds ⟨0, 23, 50, 0, 0⟩ (by decide) "00:10" 0 10 rfl (by decide)
    (by decide) (by decide) (by decide) ⟨1, 0, 10, 0, 0⟩ rfl

/-- C7: a colon-separated pair of integers outside clock range makes
`parse_time_hhmm` — and hence the resolver — raise instead of returning
null/unresolved: the try/except guards only split-and-convert, while the
range check in `datetime.replace` happens outside it. -/
theorem C7_out_of_range_raises (now : DateTime) :
    parse_time_hhmm now "25:00" = .error "ValueError: hour or minute out of range" ∧
    parse_time_hhmm now "12:75" = .error "ValueError: hour or minute out of range" ∧
    best_departure_datetime now "25:00" "" =
      .error "ValueError: hour or minute out of range" ∧
    best_departure_datetime now "" "12:75" =
      .error "ValueError: hour or minute out of range" :=
  ⟨rfl, rfl, rfl, rfl⟩

/-- C8: each countdown-loop iteration is determined by the remaining
whole seconds: above 300 the placeholder is shown, from 300 down to 1 the
live minutes:seconds countdown, and at 0 or below the departing-now
message with the loop ending. -/
theorem C8_countdown_display (targetUsec nowUsec : ℤ) :
    ((countdownIter targetUsec nowUsec = (.placeholder, true)) ↔
        300 < totalSec (targetUsec - nowUsec)) ∧
    ((countdownIter targetUsec nowUsec = (.departingNow, false)) ↔
        totalSec (targetUsec - nowUsec) ≤ 0) ∧
    (0 < totalSec (targetUsec - nowUsec) → totalSec (targetUsec - nowUsec) ≤ 300 →
        countdownIter targetUsec nowUsec =
          (.live ((totalSec (targetUsec - nowUsec)).fdiv 60)
            ((totalSec (targetUsec - nowUsec)).fmod 60), true)) := by
  unfold countdownIter countdownStep
  refine ⟨?_, ?_, ?_⟩
  · split_ifs with ha hb <;> simp <;> omega
  · split_ifs with ha hb <;> simp <;> omega
  · intro hpos hle
    split_ifs with ha hb
    · omega
    · omega
    · rfl

/-- Witness for C8 with 100 whole seconds remaining. -/
theorem C8_countdown_display_witness :
    0 < totalSec (100000000 - 0) ∧ totalSec (100000000 - 0) ≤ 300 ∧
      countdownIter 100000000 0 = (.live 1 40, true) := by
  refine ⟨by decide, by decide, ?_⟩
  exact ((C8_countdown_display 100000000 0).2.2 (by decide) (by decide)).trans (by decide)

/-- C9 counterexample: a failed fetch with a previously stored service
list surfaces the error, yet the displayed list is not empty — the
services of the earlier fetch are still shown. -/
theorem C9_counterexample :
    (fetchButtonHandler ⟨some [staleService]⟩ (.failure "network error")).errorShown
        = true ∧
      displayedServices (fetchButtonHandler ⟨some [staleService]⟩
        (.failure "network error")).newState ≠ [] :=
  ⟨rfl, List.cons_ne_nil staleService []⟩

/-- C9 amended: a transport/parse failure surfaces a user-visible error
message and triggers no retry, but it leaves the stored session list
unchanged, so services from an earlier successful fetch remain in the
displayed list (the list is empty afterwards only if no fetch had
succeeded before). -/
theorem C9_failure_keeps_stale_list (st : UIState) (msg : String) :
    (fetchButtonHandler st (.failure msg)).errorShown = true ∧
    (fetchButtonHandler st (.failure msg)).newState = st ∧
    displayedServices (fetchButtonHandler st (.failure msg)).newState =
      displayedServices st :=
  ⟨rfl, rfl, rfl⟩

/-- C10 counterexample: the rendered option string is not the spec's
"std → destination (ETD etd, Platform platform, operator)" template — the
code prefixes a 1-based index and writes "Plat", not "Platform". -/
theorem C10_counterexample :
    buildOptions [staleService] ≠ [renderOptionSpec staleService] := by
  decide

/-- C10 amended: entry i of the options list renders the i-th service as
"i+1. std → destination (ETD etd, Plat platform, operator)". -/
theorem C10_option_format (services : List ResolvedService) (i : ℕ)
    (s : ResolvedService) (h : services[i]? = some s) :
    (buildOptions services)[i]? =
      some (toString (i + 1) ++ ". " ++ s.std ++ " → " ++ s.destination ++
        " (ETD " ++ s.etd ++ ", Plat " ++ s.platform ++ ", " ++ s.operator ++ ")") := by
  unfold buildOptions
  rw [List.getElem?_map, List.getElem?_enum, h]
  rfl

/-- Witness for C10 on a one-service list. -/
theorem C10_option_format_witness :
    (buildOptions [staleService])[0]? =
      some "1. 09:15 → Reading (ETD On time, Plat 4, GW)" :=
  (C10_option_format [staleService] 0 staleService rfl).trans (by decide)

/-- Witness for C7 at a concrete current moment. -/
theorem C7_out_of_range_raises_witness :
    parse_time_hhmm ⟨0, 10, 0, 0, 0⟩ "25:00" =
      .error "ValueError: hour or minute out of range" :=
  (C7_out_of_range_raises ⟨0, 10, 0, 0, 0⟩).1

/-- Witness for the amended C9 at a concrete session state. -/
theorem C9_failure_keeps_stale_list_witness :
    (fetchButtonHandler ⟨some [staleService]⟩ (.failure "boom")).errorShown = true ∧
    (fetchButtonHandler ⟨some [staleService]⟩ (.failure "boom")).newState =
      ⟨some [staleService]⟩ ∧
    displayedServices (fetchButtonHandler ⟨some [staleService]⟩
      (.failure "boom")).newState = displayedServices ⟨some [staleService]⟩ :=
  C9_failure_keeps_stale_list ⟨some [staleService]⟩ "boom"
